import Mathlib

/-!
Verification of the typed-utterance prompt recognition and retry core
(`src/Node/src/dialogs/Prompts.ts`): a shallow embedding of
`SimplePromptRecognizer.recognize`, `Prompts.begin`, `Prompts.replyReceived`
and `Prompts.formatPrompt`, followed by theorems about the retry state
machine, the arbitration protocol, cancellation, error handling, scoring,
and choice-list rendering.

External collaborators (`EntityRecognizer.parseNumber`, `parseBoolean`,
`findBestMatch`, `recognizeTime`, the channel's `maxButtons`, the session's
`compareConfidence`) are not part of the given source; they are passed in as
parameters of the embedding (an `Env` record and plain functions), so every
theorem quantifies over their behaviour unless a concrete instance is needed.
-/

namespace BotBuilder

/-- The `PromptType` enum from Prompts.ts. -/
inductive PromptType where
  | text
  | number
  | confirm
  | choice
  | time
deriving DecidableEq, Repr

/-- The `ListStyle` enum from Prompts.ts. -/
inductive ListStyle where
  | noStyle
  | inl
  | lst
  | button
  | auto
deriving DecidableEq, Repr

/-- The `ResumeReason` values used by Prompts.ts (from Dialog.ts). -/
inductive ResumeReason where
  | completed
  | notCompleted
  | canceled
deriving DecidableEq, Repr

/-- A thrown JavaScript value: either an `Error` instance or some other value
(kept as its `toString`). Mirrors the `err instanceof Error` test in the
catch block of `SimplePromptRecognizer.recognize`. -/
inductive Thrown where
  | error (msg : String)
  | raw (s : String)
deriving DecidableEq, Repr

/-- The wrapping `err instanceof Error ? err : new Error(err.toString())` from the catch
block of `SimplePromptRecognizer.recognize`. -/
def wrapThrown : Thrown → Thrown
  | .error m => .error m
  | .raw s => .error s

/-- Result of `EntityRecognizer.findBestMatch` (index, entity, score). -/
structure FindMatch where
  index : Int
  entity : String
  score : ℚ
deriving DecidableEq, Repr

/-- Result of `EntityRecognizer.recognizeTime`; only the matched span
(`entity.entity` in the source) matters to the scoring code. -/
structure TimeEntity where
  entity : String
deriving DecidableEq, Repr

/-- The typed `response` value produced by the recognizer's switch. -/
inductive RecResponse where
  | text (s : String)
  | num (n : Int)
  | boolVal (b : Bool)
  | time (t : TimeEntity)
  | choice (m : FindMatch)
deriving DecidableEq, Repr

/-- The external entity-recognition collaborators consumed by
`SimplePromptRecognizer.recognize`. Each may throw (`Except.error`) or
report no match (`Option.none`), mirroring NaN / undefined / null results. -/
structure Env where
  parseNumber : String → Except Thrown (Option Int)
  parseBoolean : String → Except Thrown (Option Bool)
  findBestMatch : List String → String → Except Thrown (Option FindMatch)
  recognizeTime : String → Option Int → Except Thrown (Option TimeEntity)

/-- The `IPromptRecognizerArgs` fields that feed the switch (the
`compareConfidence` callback is passed separately). -/
structure RecognizerArgs where
  promptType : PromptType
  language : String
  utterance : String
  enumValues : List String := []
  refDate : Option Int := Option.none

/-- The body of the `switch (args.promptType)` in
`SimplePromptRecognizer.recognize`: computes `(score, response)` from the
trimmed utterance, or propagates a thrown value. -/
def interpretValue (env : Env) (pt : PromptType) (text : String)
    (enumValues : List String) (refDate : Option Int) :
    Except Thrown (ℚ × Option RecResponse) :=
  match pt with
  | .text =>
      .ok (1/10, some (.text text))
  | .number => do
      match ← env.parseNumber text with
      | some n => pure (((toString n).length : ℚ) / (text.length : ℚ), some (.num n))
      | Option.none => pure (0, Option.none)
  | .confirm => do
      match ← env.parseBoolean text with
      | some b => pure (1, some (.boolVal b))
      | Option.none => pure (0, Option.none)
  | .time => do
      match ← env.recognizeTime text refDate with
      | some e => pure ((e.entity.length : ℚ) / (text.length : ℚ), some (.time e))
      | Option.none => pure (0, Option.none)
  | .choice => do
      let first ← env.findBestMatch enumValues text
      let best ← match first with
        | some b => pure (some b)
        | Option.none => do
            match ← env.parseNumber text with
            | some n =>
                if 0 < n ∧ n ≤ enumValues.length then
                  pure (some ⟨n, enumValues.getD (n.toNat - 1) "", 1⟩)
                else
                  pure Option.none
            | Option.none => pure Option.none
      match best with
      | some b => pure (b.score, some (.choice b))
      | Option.none => pure (0, Option.none)

/-- JavaScript `String.prototype.trim`: strip leading and trailing
whitespace. -/
def jsTrim (s : String) : String :=
  String.mk (((s.data.dropWhile Char.isWhitespace).reverse.dropWhile
    Char.isWhitespace).reverse)

/-- ASCII lower-casing of a code point, for the `/i` regex flag. -/
def lowerN (n : Nat) : Nat :=
  if 65 ≤ n ∧ n ≤ 90 then n + 32 else n

/-- Case-insensitive character comparison (ASCII folding, as `/i` does on
the ASCII cancellation phrases). -/
def charCI (a b : Char) : Bool :=
  lowerN a.toNat = lowerN b.toNat

/-- Does the second list start with the first, case-insensitively? -/
def ciPrefix : List Char → List Char → Bool
  | [], _ => true
  | _ :: _, [] => false
  | a :: as, b :: bs => charCI a b && ciPrefix as bs

/-- The fixed cancellation phrases of `SimplePromptRecognizer.cancelExp`
(`/^(cancel|nevermind|never mind|back|stop|forget it)/i`). -/
def cancelPhrases : List String :=
  ["cancel", "nevermind", "never mind", "back", "stop", "forget it"]

/-- The test `cancelExp.test(...)`: does the string begin, case-insensitively, with
one of the cancellation phrases? -/
def cancelTest (s : String) : Bool :=
  cancelPhrases.any (fun p => ciPrefix p.data s.data)

/-- One invocation of the `compareConfidence` arbitration callback, with the
arguments it received. -/
structure ArbCall where
  language : String
  utterance : String
  score : ℚ
deriving DecidableEq, Repr

/-- The `IPromptRecognizerResult`: the outcome delivered to the recognizer's
callback. `handled` is `Option.none` where the source leaves the field
undefined. -/
structure Outcome where
  resumed : ResumeReason
  promptType : Option PromptType := Option.none
  response : Option RecResponse := Option.none
  error : Option Thrown := Option.none
  handled : Option Bool := Option.none
deriving DecidableEq, Repr

/-- JavaScript truthiness of the possibly-undefined `result.handled`. -/
def truthyHandled : Option Bool → Bool
  | some true => true
  | _ => false

/-- The method `SimplePromptRecognizer.recognize`: check cancellation on the trimmed
utterance; otherwise interpret, then call `compareConfidence` with
(language, trimmed text, score) and branch on (claimed, score). A thrown
interpreter value is caught and wrapped. Returns the outcome passed to the
callback together with the list of arbitration calls made. The host's
arbitration decision is modelled by the function `cc`. -/
def recognize (env : Env) (cc : String → String → ℚ → Bool)
    (args : RecognizerArgs) : Outcome × List ArbCall :=
  if cancelTest (jsTrim args.utterance) then
    ({ resumed := .canceled, promptType := some args.promptType }, [])
  else
    let text := jsTrim args.utterance
    match interpretValue env args.promptType text args.enumValues args.refDate with
    | .error err =>
        ({ resumed := .notCompleted, promptType := some args.promptType,
           error := some (wrapThrown err) }, [])
    | .ok (score, response) =>
        let claimed := cc args.language text score
        let call : ArbCall := ⟨args.language, text, score⟩
        if !claimed ∧ 0 < score then
          ({ resumed := .completed, promptType := some args.promptType,
             response := response }, [call])
        else
          ({ resumed := .notCompleted, promptType := some args.promptType,
             handled := some claimed }, [call])

/-- Observable effect of one `Prompts.replyReceived` turn: whether
`session.endDialog` ran (and with what result), whether a retry prompt was
sent, and the persisted `maxRetries` counter afterwards. -/
structure TurnEffect where
  ended : Bool
  retrySent : Bool
  maxRetries : Nat
  endResult : Option Outcome
deriving DecidableEq, Repr

/-- The decision logic of `Prompts.replyReceived` once the recognizer's
callback fires: skip everything when `result.handled` is truthy; end the
dialog when an error is present, `resumed` is completed or canceled, or the
persisted counter is 0; otherwise decrement the counter and send the retry
prompt. -/
def replyReceived (pt : PromptType) (mr : Nat) (result : Outcome) : TurnEffect :=
  if truthyHandled result.handled then
    ⟨false, false, mr, Option.none⟩
  else if result.error.isSome ∨ result.resumed = .completed ∨
      result.resumed = .canceled ∨ mr = 0 then
    ⟨true, false, mr, some { result with promptType := some pt }⟩
  else
    ⟨false, true, mr - 1, Option.none⟩

/-- A full reply turn: run the recognizer, then the retry controller. -/
def promptTurn (env : Env) (cc : String → String → ℚ → Bool)
    (args : RecognizerArgs) (mr : Nat) : TurnEffect × List ArbCall :=
  let r := recognize env cc args
  (replyReceived args.promptType mr r.1, r.2)

/-! ### `Prompts.begin`: maxRetries normalization and the option-bag copy -/

/-- A JavaScript property value as stored in the `IPromptArgs` bag /
`session.dialogData`. -/
inductive JsVal where
  | num (n : Nat)
  | str (s : String)
  | strs (l : List String)
  | style (s : ListStyle)
  | kind (p : PromptType)
  | other (tag : String)
deriving DecidableEq, Repr

/-- JavaScript falsiness for the values that can sit in `args.maxRetries`
(`0 || 1` and `"" || 1` both evaluate to `1`). -/
def jsFalsy : JsVal → Bool
  | .num 0 => true
  | .str "" => true
  | _ => false

/-- A JavaScript object as an ordered own-property list (keys unique). -/
abbrev Bag := List (String × JsVal)

/-- Property read: first (only) entry with the key. -/
def lookupKey (bag : Bag) (k : String) : Option JsVal :=
  match bag with
  | [] => Option.none
  | (k2, v) :: rest => if k2 = k then some v else lookupKey rest k

/-- Property write: replace in place, or append a new own property. -/
def setKey (bag : Bag) (k : String) (v : JsVal) : Bag :=
  match bag with
  | [] => [(k, v)]
  | (k2, v2) :: rest => if k2 = k then (k2, v) :: rest else (k2, v2) :: setKey rest k v

/-- The normalization `args.maxRetries = args.maxRetries || 1` from `Prompts.begin`. -/
def normalizeArgs (bag : Bag) : Bag :=
  match lookupKey bag "maxRetries" with
  | Option.none => setKey bag "maxRetries" (.num 1)
  | some v => if jsFalsy v then setKey bag "maxRetries" (.num 1) else bag

/-- The `for (var key in args) ... session.dialogData[key] = args[key]` copy
loop of `Prompts.begin`, starting from the fresh dialog's empty
`dialogData`. -/
def beginDialogData (bag : Bag) : Bag :=
  (normalizeArgs bag).foldl (fun dd kv => setKey dd kv.1 kv.2) []

/-- The option keys recognized by the prompt configuration surface
(`IPromptArgs` and `IPromptOptions`). -/
def recognizedKeys : List String :=
  ["promptType", "prompt", "enumValues", "retryPrompt", "maxRetries",
   "refDate", "listStyle"]

/-! ### `Prompts.formatPrompt`: choice-list rendering -/

/-- One selectable action of a button attachment
(`{ title: action, message: action }`). -/
structure BtnAction where
  title : String
  message : String
deriving DecidableEq, Repr

/-- The outbound message built by `formatPrompt` from a plain-text prompt:
either text plus a button attachment, or plain text. -/
inductive Rendered where
  | buttons (text : String) (actions : List BtnAction)
  | msg (text : String)
deriving DecidableEq, Repr

/-- The `ListStyle.auto` resolution in `formatPrompt`, given the channel's
`Channel.maxButtons` capacity. -/
def autoListStyle (maxBtns : Nat) (count : Nat) : ListStyle :=
  if 0 < maxBtns ∧ count ≤ maxBtns then .button
  else if count < 4 then .inl
  else .lst

/-- The inline-list `forEach` of `formatPrompt`: `list` starts as `' '`,
the connector starts empty and becomes `' or '` / `', or '` right before the
last item (depending on whether there are exactly two items), `', '`
otherwise. The index is an `Int` because the source compares
`index == args.enumValues.length - 2` with JavaScript arithmetic. -/
def inlineListAux : List String → Int → Int → String → String → String
  | [], _, _, _, acc => acc
  | v :: rest, n, i, connector, acc =>
      let acc2 := acc ++ connector ++ toString (i + 1) ++ ". " ++ v
      let connector2 := if i = n - 2 then (if i = 0 then " or " else ", or ") else ", "
      inlineListAux rest n (i + 1) connector2 acc2

/-- The inline enumeration appended by `ListStyle.inline`. -/
def inlineListText (vals : List String) : String :=
  inlineListAux vals vals.length 0 "" " "

/-- The numbered-list `forEach` of `formatPrompt`: `list` starts as
`'\n   '` and the connector becomes `'\n   '` after the first item. -/
def listListAux : List String → Nat → String → String → String
  | [], _, _, acc => acc
  | v :: rest, i, connector, acc =>
      listListAux rest (i + 1) "\n   " (acc ++ connector ++ toString (i + 1) ++ ". " ++ v)

/-- The numbered enumeration appended by `ListStyle.list`. -/
def listListText (vals : List String) : String :=
  listListAux vals 0 "" "\n   "

/-- Specification shape of the numbered list: one `"\n   i. label"` line per
label, numbering from `i + 1`. `listListText` is proved to coincide with
this on non-empty candidate lists. -/
def listEnumFrom : List String → Nat → String
  | [], _ => ""
  | v :: rest, i => "\n   " ++ toString (i + 1) ++ ". " ++ v ++ listEnumFrom rest (i + 1)

/-- The method `Prompts.formatPrompt` for a choice prompt whose resolved prompt content
is a plain string: resolve `auto` style against the channel capacity, then
render buttons, an inline enumeration, a numbered list, or plain text. -/
def formatChoicePrompt (maxBtns : Nat) (prompt : String) (vals : List String)
    (style : ListStyle) : Rendered :=
  let eff := if style = .auto then autoListStyle maxBtns vals.length else style
  match eff with
  | .button => .buttons prompt (vals.map (fun v => ⟨v, v⟩))
  | .inl => .msg (prompt ++ inlineListText vals)
  | .lst => .msg (prompt ++ listListText vals)
  | _ => .msg prompt

/-! ### Spec-modelled collaborators -/

/-- The first maximal digit run of a character list, with what follows it. -/
def firstDigitRun : List Char → Option (List Char)
  | [] => Option.none
  | c :: cs =>
      if c.isDigit then
        some (c :: cs.takeWhile Char.isDigit)
      else
        firstDigitRun cs

instance {ε α : Type} [DecidableEq ε] [DecidableEq α] : DecidableEq (Except ε α) := fun a b =>
  match a, b with
  | .error x, .error y =>
      if h : x = y then .isTrue (by rw [h]) else .isFalse (fun hc => by cases hc; exact h rfl)
  | .error _, .ok _ => .isFalse (fun hc => Except.noConfusion hc)
  | .ok _, .error _ => .isFalse (fun hc => Except.noConfusion hc)
  | .ok x, .ok y =>
      if h : x = y then .isTrue (by rw [h]) else .isFalse (fun hc => by cases hc; exact h rfl)

/-- Decimal value of a digit run. -/
def digitsToNat (l : List Char) : Nat :=
  l.foldl (fun n c => n * 10 + (c.toNat - 48)) 0

/-- Modelled from the spec: `parse-number(text) → number-or-not-a-number`
(`EntityRecognizer.parseNumber` is not part of the given source). Parses the
first maximal digit run of the text as a natural number; no digit run means
not-a-number. Never throws. -/
def specParseNumber (s : String) : Except Thrown (Option Int) :=
  match firstDigitRun s.data with
  | some run => .ok (some (digitsToNat run))
  | Option.none => .ok Option.none

/-! ### Concrete collaborator instances used in scenarios -/

/-- Collaborators that find nothing and never throw. -/
def noMatchEnv : Env :=
  { parseNumber := fun _ => .ok Option.none,
    parseBoolean := fun _ => .ok Option.none,
    findBestMatch := fun _ _ => .ok Option.none,
    recognizeTime := fun _ _ => .ok Option.none }

/-- Collaborators whose number parser is the spec-modelled one and whose
fuzzy matcher finds nothing. -/
def specNumberEnv : Env :=
  { noMatchEnv with parseNumber := specParseNumber }

/-- Collaborators whose number parser throws a non-`Error` value. -/
def boomEnv : Env :=
  { noMatchEnv with parseNumber := fun _ => .error (.raw "boom") }

/-- An arbitration host that never claims the utterance. -/
def noClaim : String → String → ℚ → Bool := fun _ _ _ => false

/-- An arbitration host that always claims the utterance. -/
def allClaim : String → String → ℚ → Bool := fun _ _ _ => true

/-- A number-prompt reply that no collaborator recognizes (score 0). -/
def zeroArgs : RecognizerArgs :=
  { promptType := .number, language := "en", utterance := "xyz" }

/-- A number-prompt reply containing the digit run `42` (length 2) in a
14-character utterance. -/
def numArgs : RecognizerArgs :=
  { promptType := .number, language := "en", utterance := "i have 42 cats" }

/-- A number-prompt reply that is exactly a 4-character digit run. -/
def digitArgs : RecognizerArgs :=
  { promptType := .number, language := "en", utterance := "1234" }

/-- A choice-prompt reply against the candidates Red, Green, Blue. -/
def choiceArgs (u : String) : RecognizerArgs :=
  { promptType := .choice, language := "en", utterance := u,
    enumValues := ["Red", "Green", "Blue"] }

/-- A reply starting (after trimming, case-insensitively) with a
cancellation phrase. -/
def cancelArgs : RecognizerArgs :=
  { promptType := .number, language := "en",
    utterance := "  Never MIND the prompt  " }

/-- The outcome the recognizer produces for an unclaimed zero-score reply
to a number prompt. -/
def zeroOutcome : Outcome :=
  { resumed := .notCompleted, promptType := some .number, handled := some false }

/-! ### Unfolding lemmas for `recognize` -/

theorem recognize_canceled (env : Env) (cc : String → String → ℚ → Bool)
    (args : RecognizerArgs) (hc : cancelTest (jsTrim args.utterance) = true) :
    recognize env cc args =
      ({ resumed := .canceled, promptType := some args.promptType }, []) := by
  simp [recognize, hc]

theorem recognize_error (env : Env) (cc : String → String → ℚ → Bool)
    (args : RecognizerArgs) (e : Thrown)
    (hc : cancelTest (jsTrim args.utterance) = false)
    (hi : interpretValue env args.promptType (jsTrim args.utterance)
      args.enumValues args.refDate = .error e) :
    recognize env cc args =
      ({ resumed := .notCompleted, promptType := some args.promptType,
         error := some (wrapThrown e) }, []) := by
  simp [recognize, hc, hi]

theorem recognize_claimed (env : Env) (cc : String → String → ℚ → Bool)
    (args : RecognizerArgs) (score : ℚ) (resp : Option RecResponse)
    (hc : cancelTest (jsTrim args.utterance) = false)
    (hi : interpretValue env args.promptType (jsTrim args.utterance)
      args.enumValues args.refDate = .ok (score, resp))
    (hcc : cc args.language (jsTrim args.utterance) score = true) :
    recognize env cc args =
      ({ resumed := .notCompleted, promptType := some args.promptType,
         handled := some true },
       [⟨args.language, jsTrim args.utterance, score⟩]) := by
  simp [recognize, hc, hi, hcc]

theorem recognize_completed (env : Env) (cc : String → String → ℚ → Bool)
    (args : RecognizerArgs) (score : ℚ) (resp : Option RecResponse)
    (hc : cancelTest (jsTrim args.utterance) = false)
    (hi : interpretValue env args.promptType (jsTrim args.utterance)
      args.enumValues args.refDate = .ok (score, resp))
    (hcc : cc args.language (jsTrim args.utterance) score = false)
    (hs : 0 < score) :
    recognize env cc args =
      ({ resumed := .completed, promptType := some args.promptType,
         response := resp },
       [⟨args.language, jsTrim args.utterance, score⟩]) := by
  simp [recognize, hc, hi, hcc, hs]

theorem recognize_unclaimed_zero (env : Env) (cc : String → String → ℚ → Bool)
    (args : RecognizerArgs) (score : ℚ) (resp : Option RecResponse)
    (hc : cancelTest (jsTrim args.utterance) = false)
    (hi : interpretValue env args.promptType (jsTrim args.utterance)
      args.enumValues args.refDate = .ok (score, resp))
    (hcc : cc args.language (jsTrim args.utterance) score = false)
    (hs : ¬ 0 < score) :
    recognize env cc args =
      ({ resumed := .notCompleted, promptType := some args.promptType,
         handled := some false },
       [⟨args.language, jsTrim args.utterance, score⟩]) := by
  simp [recognize, hc, hi, hcc, hs]

theorem recognize_snd_of_ok (env : Env) (cc : String → String → ℚ → Bool)
    (args : RecognizerArgs) (score : ℚ) (resp : Option RecResponse)
    (hc : cancelTest (jsTrim args.utterance) = false)
    (hi : interpretValue env args.promptType (jsTrim args.utterance)
      args.enumValues args.refDate = .ok (score, resp)) :
    (recognize env cc args).2 =
      [⟨args.language, jsTrim args.utterance, score⟩] := by
  by_cases hcc : cc args.language (jsTrim args.utterance) score = true
  · rw [recognize_claimed env cc args score resp hc hi hcc]
  · have hcc' : cc args.language (jsTrim args.utterance) score = false := by
      simpa using hcc
    by_cases hs : 0 < score
    · rw [recognize_completed env cc args score resp hc hi hcc' hs]
    · rw [recognize_unclaimed_zero env cc args score resp hc hi hcc' hs]

/-! ### Lemmas about the option bag -/

theorem lookupKey_setKey_self (bag : Bag) (k : String) (v : JsVal) :
    lookupKey (setKey bag k v) k = some v := by
  induction bag with
  | nil => simp [setKey, lookupKey]
  | cons hd tl ih =>
      by_cases h : hd.1 = k
      · simp [setKey, lookupKey, h]
      · simp [setKey, lookupKey, h, ih]

theorem lookupKey_setKey_other (bag : Bag) (k k2 : String) (v : JsVal)
    (h : k2 ≠ k) : lookupKey (setKey bag k v) k2 = lookupKey bag k2 := by
  induction bag with
  | nil =>
      simp only [setKey, lookupKey]
      rw [if_neg (fun hc => h hc.symm)]
  | cons hd tl ih =>
      obtain ⟨k1, v1⟩ := hd
      by_cases h1 : k1 = k
      · subst h1
        simp only [setKey, if_pos rfl, lookupKey]
        rw [if_neg (fun hc => h hc.symm), if_neg (fun hc => h hc.symm)]
      · simp only [setKey, if_neg h1, lookupKey]
        by_cases h2 : k1 = k2
        · simp [h2]
        · simp [h2, ih]

theorem lookupKey_eq_none_iff (bag : Bag) (k : String) :
    lookupKey bag k = Option.none ↔ k ∉ bag.map Prod.fst := by
  induction bag with
  | nil => simp [lookupKey]
  | cons hd tl ih =>
      obtain ⟨k1, v1⟩ := hd
      by_cases h : k1 = k
      · subst h
        simp [lookupKey]
      · simp only [lookupKey, if_neg h, ih, List.map_cons, List.mem_cons, not_or]
        constructor
        · intro hnm
          exact ⟨fun hc => h hc.symm, hnm⟩
        · intro hh
          exact hh.2

theorem setKey_of_not_mem (bag : Bag) (k : String) (v : JsVal)
    (h : k ∉ bag.map Prod.fst) : setKey bag k v = bag ++ [(k, v)] := by
  induction bag with
  | nil => simp [setKey]
  | cons hd tl ih =>
      obtain ⟨k1, v1⟩ := hd
      simp only [List.map_cons, List.mem_cons, not_or] at h
      simp only [setKey]
      rw [if_neg (fun hc : k1 = k => h.1 hc.symm), ih h.2]
      simp

theorem keys_setKey_of_mem (bag : Bag) (k : String) (v : JsVal)
    (h : k ∈ bag.map Prod.fst) :
    (setKey bag k v).map Prod.fst = bag.map Prod.fst := by
  induction bag with
  | nil => simp at h
  | cons hd tl ih =>
      obtain ⟨k1, v1⟩ := hd
      by_cases h1 : k1 = k
      · simp [setKey, h1]
      · simp only [List.map_cons, List.mem_cons] at h
        simp [setKey, h1, ih (h.resolve_left (fun hc => h1 hc.symm))]

theorem nodup_keys_normalizeArgs (bag : Bag)
    (h : (bag.map Prod.fst).Nodup) :
    ((normalizeArgs bag).map Prod.fst).Nodup := by
  unfold normalizeArgs
  cases hl : lookupKey bag "maxRetries" with
  | none =>
      have hm : "maxRetries" ∉ bag.map Prod.fst := (lookupKey_eq_none_iff bag _).1 hl
      rw [setKey_of_not_mem bag _ _ hm]
      rw [List.map_append]
      exact List.Nodup.append h (List.nodup_singleton _)
        (by
          intro a ha hb
          simp only [List.map_cons, List.map_nil, List.mem_singleton] at hb
          exact hm (hb ▸ ha))
  | some v =>
      by_cases hf : jsFalsy v = true
      · have hm : "maxRetries" ∈ bag.map Prod.fst := by
          by_contra hc
          rw [(lookupKey_eq_none_iff bag _).2 hc] at hl
          exact Option.noConfusion hl
        simp [hf, keys_setKey_of_mem bag _ _ hm, h]
      · simp [hf, h]

theorem foldl_setKey_append (l : Bag) : ∀ dd : Bag,
    (l.map Prod.fst).Nodup →
    (∀ k ∈ l.map Prod.fst, k ∉ dd.map Prod.fst) →
    l.foldl (fun d kv => setKey d kv.1 kv.2) dd = dd ++ l := by
  induction l with
  | nil => intro dd _ _; simp
  | cons p tl ih =>
      intro dd h hdisj
      have hnodup : (tl.map Prod.fst).Nodup := by
        simp only [List.map_cons, List.nodup_cons] at h
        exact h.2
      have hnotin : p.1 ∉ tl.map Prod.fst := by
        simp only [List.map_cons, List.nodup_cons] at h
        exact h.1
      have hp : p.1 ∉ dd.map Prod.fst := hdisj p.1 (by simp)
      have hdisj2 : ∀ k ∈ tl.map Prod.fst, k ∉ (dd ++ [(p.1, p.2)]).map Prod.fst := by
        intro k hk
        simp only [List.map_append, List.mem_append, List.map_cons, List.map_nil,
          List.mem_singleton, not_or]
        exact ⟨hdisj k (by simp [hk]), fun hc => hnotin (hc ▸ hk)⟩
      simp only [List.foldl_cons]
      rw [setKey_of_not_mem dd p.1 p.2 hp, ih (dd ++ [(p.1, p.2)]) hnodup hdisj2]
      simp

theorem beginDialogData_eq_normalizeArgs (bag : Bag)
    (h : (bag.map Prod.fst).Nodup) :
    beginDialogData bag = normalizeArgs bag := by
  unfold beginDialogData
  rw [foldl_setKey_append _ [] (nodup_keys_normalizeArgs bag h) (by simp)]
  simp

theorem lookupKey_normalizeArgs_other (bag : Bag) (k : String)
    (h : k ≠ "maxRetries") :
    lookupKey (normalizeArgs bag) k = lookupKey bag k := by
  unfold normalizeArgs
  cases hl : lookupKey bag "maxRetries" with
  | none => exact lookupKey_setKey_other bag _ k _ h
  | some v =>
      by_cases hf : jsFalsy v = true
      · simp [hf, lookupKey_setKey_other bag _ k _ h]
      · simp [hf]

/-! ### Lemmas about list rendering -/

theorem listListAux_eq_listEnumFrom (vals : List String) :
    ∀ (i : Nat) (acc : String),
    listListAux vals i "\n   " acc = acc ++ listEnumFrom vals i := by
  induction vals with
  | nil => intro i acc; simp [listListAux, listEnumFrom]
  | cons v rest ih =>
      intro i acc
      simp only [listListAux, listEnumFrom, ih (i + 1)]
      simp [String.append_assoc]

theorem listListText_eq_listEnumFrom (v : String) (rest : List String) :
    listListText (v :: rest) = listEnumFrom (v :: rest) 0 := by
  simp only [listListText, listListAux, listEnumFrom,
    listListAux_eq_listEnumFrom rest 1]
  simp [String.append_assoc]

/-! ### Claim theorems -/

/-- C1: the persisted remaining-retries counter only ever decreases; it
decreases (by exactly one, with a retry prompt sent) exactly on turns whose
outcome is NotCompleted with no error, unclaimed, and with retries
remaining; on an unclaimed turn the dialog ends exactly when resume is
Completed or Canceled, an error is present, or the counter is already 0;
and with maxRetries = 2 and three consecutive unclaimed zero-score replies,
turns 1 and 2 each send a retry message leaving the counter at 1 then 0,
and turn 3 ends the dialog with resume = NotCompleted and no further
message. -/
theorem retry_budget_invariant :
    (∀ (pt : PromptType) (mr : Nat) (r : Outcome),
       (replyReceived pt mr r).maxRetries ≤ mr)
  ∧ (∀ (pt : PromptType) (mr : Nat) (r : Outcome),
       truthyHandled r.handled = false → r.error = Option.none →
       r.resumed = .notCompleted → mr ≠ 0 →
       replyReceived pt mr r = ⟨false, true, mr - 1, Option.none⟩)
  ∧ (∀ (pt : PromptType) (mr : Nat) (r : Outcome),
       (replyReceived pt mr r).maxRetries ≠ mr →
       truthyHandled r.handled = false ∧ r.error = Option.none ∧
       r.resumed = .notCompleted ∧ mr ≠ 0 ∧
       (replyReceived pt mr r).maxRetries = mr - 1 ∧
       (replyReceived pt mr r).retrySent = true)
  ∧ (∀ (pt : PromptType) (mr : Nat) (r : Outcome),
       truthyHandled r.handled = false →
       ((replyReceived pt mr r).ended = true ↔
         (r.resumed = .completed ∨ r.resumed = .canceled ∨
          r.error ≠ Option.none ∨ mr = 0)))
  ∧ ((recognize noMatchEnv noClaim zeroArgs).1 = zeroOutcome
      ∧ replyReceived .number 2 zeroOutcome = ⟨false, true, 1, Option.none⟩
      ∧ replyReceived .number 1 zeroOutcome = ⟨false, true, 0, Option.none⟩
      ∧ replyReceived .number 0 zeroOutcome = ⟨true, false, 0, some zeroOutcome⟩) := by
  refine ⟨?_, ?_, ?_, ?_, ?_⟩
  · intro pt mr r
    unfold replyReceived
    split
    · exact le_refl mr
    split
    · exact le_refl mr
    · exact Nat.sub_le mr 1
  · intro pt mr r h1 h2 h3 h4
    simp [replyReceived, h1, h2, h3, h4]
  · intro pt mr r h
    by_cases h1 : truthyHandled r.handled = true
    · exact absurd (by simp [replyReceived, h1]) h
    have h1' : truthyHandled r.handled = false := by
      simpa using h1
    by_cases h2 : (r.error.isSome = true ∨ r.resumed = .completed ∨
        r.resumed = .canceled ∨ mr = 0)
    · exact absurd (by simp [replyReceived, h1', h2]) h
    push_neg at h2
    obtain ⟨he, hcp, hcn, hmr⟩ := h2
    have herr : r.error = Option.none := by
      cases hx : r.error with
      | none => rfl
      | some e => rw [hx] at he; simp at he
    have hres : r.resumed = .notCompleted := by
      cases hx : r.resumed with
      | completed => exact absurd hx hcp
      | canceled => exact absurd hx hcn
      | notCompleted => rfl
    refine ⟨h1', herr, hres, hmr, ?_, ?_⟩
    · simp [replyReceived, h1', herr, hres, hmr]
    · simp [replyReceived, h1', herr, hres, hmr]
  · intro pt mr r h1
    rw [Option.ne_none_iff_isSome]
    by_cases hP : (r.error.isSome = true ∨ r.resumed = .completed ∨
        r.resumed = .canceled ∨ mr = 0)
    · constructor
      · intro _
        tauto
      · intro _
        simp [replyReceived, h1, hP]
    · constructor
      · intro hc
        exfalso
        have : (replyReceived pt mr r).ended = false := by
          simp [replyReceived, h1, hP]
        rw [hc] at this
        exact Bool.noConfusion this
      · intro hc
        tauto
  · exact ⟨by decide, by decide, by decide, by decide⟩

/-- Witness for `retry_budget_invariant`: a concrete unclaimed zero-score
turn with two retries remaining decrements the counter to 1 and sends a
retry prompt. -/
theorem retry_budget_invariant_witness :
    replyReceived .number 2 zeroOutcome = ⟨false, true, 1, Option.none⟩ :=
  retry_budget_invariant.2.1 .number 2 zeroOutcome (by decide) (by decide)
    (by decide) (by decide)

/-- C2: on a non-canceled reply turn whose interpretation does not raise:
if the arbitration host claims the utterance, the outcome has
handled = true and resume = NotCompleted and the turn neither ends the
dialog, nor sends a message, nor touches the counter; if unclaimed with
score > 0 the outcome is Completed carrying the interpreted value; if
unclaimed with score = 0 the outcome is NotCompleted with no value. -/
theorem arbitration_resolution (env : Env) (cc : String → String → ℚ → Bool)
    (args : RecognizerArgs) (score : ℚ) (resp : Option RecResponse)
    (hc : cancelTest (jsTrim args.utterance) = false)
    (hi : interpretValue env args.promptType (jsTrim args.utterance)
      args.enumValues args.refDate = .ok (score, resp)) :
    (cc args.language (jsTrim args.utterance) score = true →
       (recognize env cc args).1 =
         { resumed := .notCompleted, promptType := some args.promptType,
           handled := some true }
       ∧ ∀ mr : Nat, replyReceived args.promptType mr (recognize env cc args).1
           = ⟨false, false, mr, Option.none⟩)
  ∧ (cc args.language (jsTrim args.utterance) score = false → 0 < score →
       (recognize env cc args).1 =
         { resumed := .completed, promptType := some args.promptType,
           response := resp })
  ∧ (cc args.language (jsTrim args.utterance) score = false → score = 0 →
       (recognize env cc args).1 =
         { resumed := .notCompleted, promptType := some args.promptType,
           handled := some false }) := by
  refine ⟨?_, ?_, ?_⟩
  · intro hcc
    rw [recognize_claimed env cc args score resp hc hi hcc]
    exact ⟨rfl, fun mr => by simp [replyReceived, truthyHandled]⟩
  · intro hcc hs
    rw [recognize_completed env cc args score resp hc hi hcc hs]
  · intro hcc hs0
    rw [recognize_unclaimed_zero env cc args score resp hc hi hcc (by simp [hs0])]

/-- Witness for `arbitration_resolution`: the unclaimed zero-score reply
`"xyz"` to a number prompt yields NotCompleted with handled = false. -/
theorem arbitration_resolution_witness :
    (recognize noMatchEnv noClaim zeroArgs).1 =
      { resumed := .notCompleted, promptType := some .number,
        handled := some false } :=
  (arbitration_resolution noMatchEnv noClaim zeroArgs 0 Option.none
    (by decide) (by decide)).2.2 (by decide) rfl

/-- C3 (amended): on every reply turn that is not a cancellation and in
which interpretation does not raise, the arbitration function is invoked
exactly once, with the language tag, the trimmed utterance, and the
computed score — including when the score is 0; when the interpreter
raises, arbitration is skipped (see the counterexample). -/
theorem arbitration_called_once (env : Env) (cc : String → String → ℚ → Bool)
    (args : RecognizerArgs) (score : ℚ) (resp : Option RecResponse)
    (hc : cancelTest (jsTrim args.utterance) = false)
    (hi : interpretValue env args.promptType (jsTrim args.utterance)
      args.enumValues args.refDate = .ok (score, resp)) :
    (recognize env cc args).2 =
      [⟨args.language, jsTrim args.utterance, score⟩] :=
  recognize_snd_of_ok env cc args score resp hc hi

/-- Counterexample to C3 as stated: on a non-canceled number-prompt turn
whose number parser throws, the arbitration function is invoked zero
times, not once. -/
theorem arbitration_skipped_on_interpreter_raise :
    cancelTest (jsTrim numArgs.utterance) = false
    ∧ (recognize boomEnv noClaim numArgs).2 = [] :=
  ⟨by decide, by decide⟩

/-- Witness for `arbitration_called_once`: the zero-score turn still calls
arbitration once, with score 0. -/
theorem arbitration_called_once_witness :
    (recognize noMatchEnv noClaim zeroArgs).2 = [⟨"en", "xyz", 0⟩] := by
  rw [arbitration_called_once noMatchEnv noClaim zeroArgs 0 Option.none
    (by decide) (by decide)]
  decide

/-- C5: an utterance whose trimmed text begins case-insensitively with one
of the six cancellation phrases yields a Canceled outcome with no value,
for every prompt type and with interpretation and arbitration bypassed
entirely (the result does not depend on `env` or `cc`, and no arbitration
call is made). -/
theorem cancellation_short_circuits (env : Env)
    (cc : String → String → ℚ → Bool) (args : RecognizerArgs)
    (h : ∃ p ∈ cancelPhrases, ciPrefix p.data (jsTrim args.utterance).data = true) :
    recognize env cc args =
      ({ resumed := .canceled, promptType := some args.promptType }, []) := by
  apply recognize_canceled
  unfold cancelTest
  rw [List.any_eq_true]
  obtain ⟨p, hp, hpre⟩ := h
  exact ⟨p, hp, hpre⟩

/-- Witness for `cancellation_short_circuits`: `"  Never MIND the prompt  "`
cancels a number prompt even under a throwing parser and an always-claiming
host. -/
theorem cancellation_short_circuits_witness :
    recognize boomEnv allClaim cancelArgs =
      ({ resumed := .canceled, promptType := some .number }, []) := by
  rw [cancellation_short_circuits boomEnv allClaim cancelArgs
    ⟨"never mind", by decide, by decide⟩]
  decide

/-- C6: a thrown interpreter value never escapes: the outcome carries the
wrapped error (wrapped into an `Error` if it was not one), no arbitration
call is made, and the dialog ends that turn with no retry consumed and no
retry message sent. -/
theorem interpreter_exception_contained (env : Env)
    (cc : String → String → ℚ → Bool) (args : RecognizerArgs) (e : Thrown)
    (mr : Nat)
    (hc : cancelTest (jsTrim args.utterance) = false)
    (hi : interpretValue env args.promptType (jsTrim args.utterance)
      args.enumValues args.refDate = .error e) :
    (recognize env cc args).1 =
      { resumed := .notCompleted, promptType := some args.promptType,
        error := some (wrapThrown e) }
  ∧ (recognize env cc args).2 = []
  ∧ (∃ m, wrapThrown e = .error m)
  ∧ replyReceived args.promptType mr (recognize env cc args).1 =
      ⟨true, false, mr, some ((recognize env cc args).1)⟩ := by
  rw [recognize_error env cc args e hc hi]
  refine ⟨rfl, rfl, ?_, ?_⟩
  · cases e with
    | error m => exact ⟨m, rfl⟩
    | raw s => exact ⟨s, rfl⟩
  · simp [replyReceived, truthyHandled]

/-- Witness for `interpreter_exception_contained`: the thrown raw value
`"boom"` is wrapped into an `Error` and ends the dialog with the counter
untouched. -/
theorem interpreter_exception_contained_witness :
    (recognize boomEnv noClaim numArgs).1 =
      { resumed := .notCompleted, promptType := some .number,
        error := some (.error "boom") }
    ∧ replyReceived .number 5 (recognize boomEnv noClaim numArgs).1 =
      ⟨true, false, 5, some ((recognize boomEnv noClaim numArgs).1)⟩ :=
  have h := interpreter_exception_contained boomEnv noClaim numArgs
    (.raw "boom") 5 (by decide) (by decide)
  ⟨h.1, h.2.2.2⟩

/-- Counterexample to C4 as stated: `begin` stores maxRetries = 1 for a bag
that explicitly configured maxRetries = 0 (`args.maxRetries || 1` treats 0
as falsy), and with the normalized counter 1 the first unrecognized,
unclaimed reply sends a retry message instead of ending the dialog. -/
theorem maxRetries_zero_not_preserved :
    lookupKey (beginDialogData
      [("promptType", .kind .number), ("prompt", .str "pick a number"),
       ("maxRetries", .num 0)]) "maxRetries" = some (.num 1)
    ∧ replyReceived .number 1 zeroOutcome = ⟨false, true, 0, Option.none⟩ :=
  ⟨by decide, by decide⟩

/-- C4 (amended): `begin` applies the default maxRetries = 1 when
maxRetries is absent or falsy — in particular an explicitly configured 0
is normalized to 1 — and any truthy configured value is preserved; so a
dialog configured with maxRetries = 0 sends one retry message on its first
unrecognized, unclaimed reply and ends terminally on the second. -/
theorem maxRetries_normalization :
    (∀ bag : Bag, lookupKey bag "maxRetries" = Option.none →
       lookupKey (normalizeArgs bag) "maxRetries" = some (.num 1))
  ∧ (∀ (bag : Bag) (v : JsVal), lookupKey bag "maxRetries" = some v →
       jsFalsy v = true →
       lookupKey (normalizeArgs bag) "maxRetries" = some (.num 1))
  ∧ (∀ (bag : Bag) (v : JsVal), lookupKey bag "maxRetries" = some v →
       jsFalsy v = false →
       lookupKey (normalizeArgs bag) "maxRetries" = some v)
  ∧ (replyReceived .number 1 zeroOutcome = ⟨false, true, 0, Option.none⟩
     ∧ replyReceived .number 0 zeroOutcome = ⟨true, false, 0, some zeroOutcome⟩) := by
  refine ⟨?_, ?_, ?_, by decide, by decide⟩
  · intro bag h
    unfold normalizeArgs
    rw [h]
    exact lookupKey_setKey_self bag _ _
  · intro bag v h hf
    unfold normalizeArgs
    rw [h]
    simp only [hf, if_true]
    exact lookupKey_setKey_self bag _ _
  · intro bag v h hf
    unfold normalizeArgs
    rw [h]
    simp [hf, h]

/-- Witness for `maxRetries_normalization`: a bag with maxRetries = 0 is
normalized to maxRetries = 1. -/
theorem maxRetries_normalization_witness :
    lookupKey (normalizeArgs [("maxRetries", JsVal.num 0)]) "maxRetries"
      = some (.num 1) :=
  maxRetries_normalization.2.1 [("maxRetries", JsVal.num 0)] (.num 0)
    (by decide) (by decide)

/-- C7: for a number prompt whose parser succeeds with `n`, the score is
the character length of the parsed number's decimal representation
(`n.toString()` in the source) divided by the character length of the full
trimmed utterance, and the recognized value is `n`; on parse failure the
score is 0. With the spec-modelled digit-run parser, the 2-digit run `42`
inside the 14-character utterance `"i have 42 cats"` scores 2/14 with
value 42, and the pure 4-digit run `"1234"` scores 4/4 = 1 with value
1234. -/
theorem number_score_proportion :
    (∀ (env : Env) (cc : String → String → ℚ → Bool)
       (args : RecognizerArgs) (n : Int),
       args.promptType = .number →
       cancelTest (jsTrim args.utterance) = false →
       env.parseNumber (jsTrim args.utterance) = .ok (some n) →
       interpretValue env args.promptType (jsTrim args.utterance)
           args.enumValues args.refDate
         = .ok ((((toString n).length : ℚ) / (((jsTrim args.utterance).length : Nat) : ℚ)),
                some (.num n))
       ∧ (recognize env cc args).2 =
           [⟨args.language, jsTrim args.utterance,
             ((toString n).length : ℚ) / (((jsTrim args.utterance).length : Nat) : ℚ)⟩])
  ∧ (∀ (env : Env) (cc : String → String → ℚ → Bool) (args : RecognizerArgs),
       args.promptType = .number →
       cancelTest (jsTrim args.utterance) = false →
       env.parseNumber (jsTrim args.utterance) = .ok Option.none →
       (recognize env cc args).2 = [⟨args.language, jsTrim args.utterance, 0⟩])
  ∧ ((recognize specNumberEnv noClaim numArgs).1 =
       { resumed := .completed, promptType := some .number,
         response := some (.num 42) }
     ∧ (recognize specNumberEnv noClaim numArgs).2 =
       [⟨"en", "i have 42 cats", 2/14⟩])
  ∧ ((recognize specNumberEnv noClaim digitArgs).1 =
       { resumed := .completed, promptType := some .number,
         response := some (.num 1234) }
     ∧ (recognize specNumberEnv noClaim digitArgs).2 =
       [⟨"en", "1234", 4/4⟩]) := by
  have hmain : ∀ (env : Env) (cc : String → String → ℚ → Bool)
      (args : RecognizerArgs) (n : Int),
      args.promptType = .number →
      cancelTest (jsTrim args.utterance) = false →
      env.parseNumber (jsTrim args.utterance) = .ok (some n) →
      interpretValue env args.promptType (jsTrim args.utterance)
          args.enumValues args.refDate
        = .ok ((((toString n).length : ℚ) / (((jsTrim args.utterance).length : Nat) : ℚ)),
               some (.num n))
      ∧ (recognize env cc args).2 =
          [⟨args.language, jsTrim args.utterance,
            ((toString n).length : ℚ) / (((jsTrim args.utterance).length : Nat) : ℚ)⟩] := by
    intro env cc args n hpt hc hp
    have hi : interpretValue env args.promptType (jsTrim args.utterance)
        args.enumValues args.refDate
      = .ok ((((toString n).length : ℚ) / (((jsTrim args.utterance).length : Nat) : ℚ)),
             some (.num n)) := by
      rw [hpt]
      simp [interpretValue, hp, bind, Except.bind, pure, Except.pure]
    exact ⟨hi, recognize_snd_of_ok env cc args _ _ hc hi⟩
  refine ⟨hmain, ?_, ?_, ?_⟩
  · intro env cc args hpt hc hp
    have hi : interpretValue env args.promptType (jsTrim args.utterance)
        args.enumValues args.refDate = .ok (0, Option.none) := by
      rw [hpt]
      simp [interpretValue, hp, bind, Except.bind, pure, Except.pure]
    exact recognize_snd_of_ok env cc args 0 Option.none hc hi
  · have hp : specNumberEnv.parseNumber (jsTrim numArgs.utterance)
        = .ok (some 42) := by decide
    have h := hmain specNumberEnv noClaim numArgs 42 rfl (by decide) hp
    have hl : ((toString (42 : Int)).length : Nat) = 2 := by decide
    have ht : ((jsTrim numArgs.utterance).length : Nat) = 14 := by decide
    have hscore : (((toString (42 : Int)).length : ℚ) /
        (((jsTrim numArgs.utterance).length : Nat) : ℚ)) = 2/14 := by
      rw [hl, ht]
      norm_num
    have htrim : jsTrim numArgs.utterance = "i have 42 cats" := by decide
    constructor
    · rw [(recognize_completed specNumberEnv noClaim numArgs _ _ (by decide) h.1
        (by decide) (by rw [hscore]; norm_num))]
      rfl
    · rw [h.2, hscore, htrim]
      rfl
  · have hp : specNumberEnv.parseNumber (jsTrim digitArgs.utterance)
        = .ok (some 1234) := by decide
    have h := hmain specNumberEnv noClaim digitArgs 1234 rfl (by decide) hp
    have hl : ((toString (1234 : Int)).length : Nat) = 4 := by decide
    have ht : ((jsTrim digitArgs.utterance).length : Nat) = 4 := by decide
    have hscore : (((toString (1234 : Int)).length : ℚ) /
        (((jsTrim digitArgs.utterance).length : Nat) : ℚ)) = 4/4 := by
      rw [hl, ht]
      norm_num
    have htrim : jsTrim digitArgs.utterance = "1234" := by decide
    constructor
    · rw [(recognize_completed specNumberEnv noClaim digitArgs _ _ (by decide) h.1
        (by decide) (by rw [hscore]; norm_num))]
      rfl
    · rw [h.2, hscore, htrim]
      rfl

/-- Witness for `number_score_proportion`: the parse-failure branch at the
unrecognized utterance `"xyz"` records score 0 in the arbitration call. -/
theorem number_score_proportion_witness :
    (recognize noMatchEnv noClaim zeroArgs).2 = [⟨"en", "xyz", 0⟩] := by
  rw [number_score_proportion.2.1 noMatchEnv noClaim zeroArgs rfl
    (by decide) (by decide)]
  decide

/-- C8: for a choice prompt, when fuzzy matching finds no match but the
utterance parses as a number n with 1 ≤ n ≤ candidate count, the result
has score 1.0, index n, and label the n-th candidate (1-based); a number
out of that range (with no fuzzy match) leaves the score at 0. Concretely,
candidates Red, Green, Blue with utterance `"2"` complete with index 2,
label `"Green"`, score 1, while `"5"` stays unrecognized. -/
theorem choice_ordinal_fallback :
    (∀ (env : Env) (args : RecognizerArgs) (n : Int),
       args.promptType = .choice →
       env.findBestMatch args.enumValues (jsTrim args.utterance) = .ok Option.none →
       env.parseNumber (jsTrim args.utterance) = .ok (some n) →
       ((0 < n ∧ n ≤ args.enumValues.length) →
         interpretValue env args.promptType (jsTrim args.utterance)
             args.enumValues args.refDate
           = .ok (1, some (.choice ⟨n, args.enumValues.getD (n.toNat - 1) "", 1⟩)))
       ∧ (¬(0 < n ∧ n ≤ args.enumValues.length) →
         interpretValue env args.promptType (jsTrim args.utterance)
             args.enumValues args.refDate = .ok (0, Option.none)))
  ∧ ((recognize specNumberEnv noClaim (choiceArgs "2")).1 =
       { resumed := .completed, promptType := some .choice,
         response := some (.choice ⟨2, "Green", 1⟩) })
  ∧ ((recognize specNumberEnv noClaim (choiceArgs "5")).1 =
       { resumed := .notCompleted, promptType := some .choice,
         handled := some false }) := by
  refine ⟨?_, by decide, by decide⟩
  intro env args n hpt hf hp
  constructor
  · intro hin
    rw [hpt]
    simp [interpretValue, hf, hp, hin, bind, Except.bind, pure, Except.pure]
  · intro hin
    rw [hpt]
    simp [interpretValue, hf, hp, hin, bind, Except.bind, pure, Except.pure]

/-- Witness for `choice_ordinal_fallback`: utterance `"2"` against
Red/Green/Blue interprets as index 2, label Green, score 1. -/
theorem choice_ordinal_fallback_witness :
    interpretValue specNumberEnv (choiceArgs "2").promptType
      (jsTrim (choiceArgs "2").utterance) (choiceArgs "2").enumValues
      (choiceArgs "2").refDate
      = .ok (1, some (.choice ⟨2, "Green", 1⟩)) :=
  (choice_ordinal_fallback.1 specNumberEnv (choiceArgs "2") 2 rfl (by decide)
    (by decide)).1 (by decide)

/-- C9: for a choice prompt rendered from plain text with list style Auto:
if the channel button capacity B is positive and the candidate count fits,
the message carries one button action per candidate, in order; otherwise
with fewer than 4 candidates the inline enumeration is appended (comma
joined, `" or "` before the last item for two items, `", or "` otherwise);
otherwise the newline-separated numbered list is appended, one item per
line. -/
theorem choice_list_rendering :
    (∀ (maxBtns : Nat) (prompt : String) (vals : List String),
       0 < maxBtns → vals.length ≤ maxBtns →
       formatChoicePrompt maxBtns prompt vals .auto =
         .buttons prompt (vals.map (fun v => ⟨v, v⟩)))
  ∧ (∀ (maxBtns : Nat) (prompt : String) (vals : List String),
       ¬(0 < maxBtns ∧ vals.length ≤ maxBtns) → vals.length < 4 →
       formatChoicePrompt maxBtns prompt vals .auto =
         .msg (prompt ++ inlineListText vals))
  ∧ (∀ (maxBtns : Nat) (prompt : String) (vals : List String),
       ¬(0 < maxBtns ∧ vals.length ≤ maxBtns) → 4 ≤ vals.length →
       formatChoicePrompt maxBtns prompt vals .auto =
         .msg (prompt ++ listListText vals))
  ∧ (∀ (v : String) (rest : List String),
       listListText (v :: rest) = listEnumFrom (v :: rest) 0)
  ∧ inlineListText ["Red", "Green", "Blue"] = " 1. Red, 2. Green, or 3. Blue"
  ∧ inlineListText ["Red", "Blue"] = " 1. Red or 2. Blue"
  ∧ formatChoicePrompt 5 "Pick one:" ["Red", "Green", "Blue"] .auto =
      .buttons "Pick one:" [⟨"Red", "Red"⟩, ⟨"Green", "Green"⟩, ⟨"Blue", "Blue"⟩]
  ∧ formatChoicePrompt 0 "Pick one:" ["Red", "Green", "Blue"] .auto =
      .msg "Pick one: 1. Red, 2. Green, or 3. Blue"
  ∧ formatChoicePrompt 0 "Pick one:" ["Red", "Green", "Blue", "Yellow", "Pink"] .auto =
      .msg "Pick one:\n   1. Red\n   2. Green\n   3. Blue\n   4. Yellow\n   5. Pink" := by
  refine ⟨?_, ?_, ?_, listListText_eq_listEnumFrom, by decide, by decide,
    by decide, by decide, by decide⟩
  · intro maxBtns prompt vals h1 h2
    have hcond : 0 < maxBtns ∧ vals.length ≤ maxBtns := ⟨h1, h2⟩
    simp [formatChoicePrompt, autoListStyle, hcond]
  · intro maxBtns prompt vals h1 h2
    simp [formatChoicePrompt, autoListStyle, h1, h2]
  · intro maxBtns prompt vals h1 h2
    have h3 : ¬(vals.length < 4) := not_lt.mpr h2
    simp [formatChoicePrompt, autoListStyle, h1, h3]

/-- Witness for `choice_list_rendering`: three candidates on a channel
with capacity 3 render as three buttons. -/
theorem choice_list_rendering_witness :
    formatChoicePrompt 3 "Choose:" ["A", "B", "C"] .auto =
      .buttons "Choose:" [⟨"A", "A"⟩, ⟨"B", "B"⟩, ⟨"C", "C"⟩] := by
  rw [choice_list_rendering.1 3 "Choose:" ["A", "B", "C"] (by decide) (by decide)]
  decide

/-- C10: `begin` copies every own property of the (maxRetries-normalized)
argument bag into the persisted dialog state, one key at a time, so the
persisted layout is exactly the caller's normalized option bag; keys
outside the recognized configuration surface are silently stored rather
than rejected. -/
theorem begin_copies_entire_bag :
    (∀ bag : Bag, (bag.map Prod.fst).Nodup →
       beginDialogData bag = normalizeArgs bag
       ∧ (∀ (k : String) (v : JsVal), k ≠ "maxRetries" →
            lookupKey bag k = some v →
            lookupKey (beginDialogData bag) k = some v))
  ∧ ("fooBar" ∉ recognizedKeys
     ∧ lookupKey (beginDialogData
         [("promptType", .kind .text), ("prompt", .str "hi"),
          ("fooBar", .str "x")]) "fooBar" = some (.str "x")) := by
  constructor
  · intro bag h
    refine ⟨beginDialogData_eq_normalizeArgs bag h, ?_⟩
    intro k v hk hv
    rw [beginDialogData_eq_normalizeArgs bag h,
      lookupKey_normalizeArgs_other bag k hk]
    exact hv
  · exact ⟨by decide, by decide⟩

/-- Witness for `begin_copies_entire_bag`: a concrete bag with an
unrecognized key `fooBar` persists exactly as its normalized form. -/
theorem begin_copies_entire_bag_witness :
    beginDialogData [("promptType", JsVal.kind .text),
        ("maxRetries", JsVal.num 3), ("fooBar", JsVal.str "x")]
      = normalizeArgs [("promptType", JsVal.kind .text),
        ("maxRetries", JsVal.num 3), ("fooBar", JsVal.str "x")] :=
  (begin_copies_entire_bag.1 _ (by decide)).1

end BotBuilder
